import Mathlib

/-!
Verification of the WinRT BLE wrapper
(`src/nioxplugin/src/nativeInterop/cpp/winrt_ble_wrapper.{h,cpp}`).

Shallow embedding conventions:
* C strings (`char*`) are represented as `List Nat` of their bytes, without
  the terminating NUL; a null pointer is `Option.none`.  The local name of an
  advertisement (`hstring LocalName`) is carried as its UTF-8 byte encoding,
  so `hstring_to_cstring` is the identity on this representation and an empty
  `hstring` corresponds to `[]` (the `WideCharToMultiByte` conversion of a
  non-empty wide string is non-empty, and of the empty string is empty).
* The global variables of the C file become the fields of `GlobalState`.
  The watcher `std::unique_ptr` is modelled by a `Bool` (non-null or null);
  the callback and user-data pointers by `Option Nat` (an abstract pointer
  value, `none` = null).
* OS calls that can throw (`init_apartment`, watcher creation / `Start`) are
  resolved by an environment record `Env` of booleans saying whether each
  call succeeds; a `catch (...)` branch becomes the `false` case.
* Machine integers: the Bluetooth address (`uint64_t`) is a `Nat` (its
  value), `rssi` (`int16_t`) an `Int`, and the C `int` arguments are `Int`.
-/

/-- `BLEDevice` struct from `winrt_ble_wrapper.h` lines 9-14. -/
structure BLEDevice where
  name : Option (List Nat)
  address : List Nat
  rssi : Int
  hasRssi : Int
deriving DecidableEq, Repr

/-- The advertisement payload visible to the handler.  Only `localName` is
read by the code; the other payload fields are carried so that we can state
that they do not influence the result. -/
structure Advertisement where
  localName : List Nat
  serviceData : List (List Nat)
  manufacturerData : List (List Nat)
deriving DecidableEq, Repr

/-- The event arguments of a `Received` event
(`BluetoothLEAdvertisementReceivedEventArgs`). -/
structure AdvArgs where
  bluetoothAddress : Nat
  rawSignalStrength : Int
  advertisement : Advertisement
deriving DecidableEq, Repr

/-- The global variables of `winrt_ble_wrapper.cpp` lines 23-28. -/
structure GlobalState where
  g_initialized : Bool
  g_watcher : Bool
  g_discovered_devices : List BLEDevice
  g_callback : Option Nat
  g_user_data : Option Nat
  g_niox_only : Bool
deriving DecidableEq, Repr

/-- The initial values of the globals (lines 23-28). -/
def initialState : GlobalState :=
  { g_initialized := false
    g_watcher := false
    g_discovered_devices := []
    g_callback := none
    g_user_data := none
    g_niox_only := false }

/-- Whether the throwing OS calls succeed in this run. -/
structure Env where
  apartmentOk : Bool
  watcherOk : Bool
deriving DecidableEq, Repr

/-- `NIOX_PREFIX = "NIOX PRO"` (line 29), as UTF-8 bytes. -/
def NIOX_PREFIX : List Nat := [78, 73, 79, 88, 32, 80, 82, 79]

/-- C `strncmp` on NUL-terminated strings represented as byte lists:
compare at most `n` characters, stopping at the first difference or at a
terminating NUL (the end of a list stands for the NUL terminator). -/
def strncmp : List Nat → List Nat → Nat → Int
  | _, _, 0 => 0
  | [], [], _ + 1 => 0
  | [], b :: _, _ + 1 => 0 - (b : Int)
  | a :: _, [], _ + 1 => (a : Int)
  | a :: as, b :: bs, n + 1 =>
    if a ≠ b then (a : Int) - (b : Int)
    else if a = 0 then 0
    else strncmp as bs n

/-- `is_niox_device` (lines 60-64): null name is never a NIOX device,
otherwise `strncmp(name, NIOX_PREFIX, strlen(NIOX_PREFIX)) == 0`. -/
def is_niox_device : Option (List Nat) → Bool
  | none => false
  | some name => strncmp name NIOX_PREFIX NIOX_PREFIX.length == 0

/-- One uppercase hexadecimal digit, as the byte of its ASCII character. -/
def hexDigit (n : Nat) : Nat := if n < 10 then 48 + n else 55 + n

/-- `"%02X"` applied to a byte value: two uppercase hexadecimal digits. -/
def byteHex (b : Nat) : List Nat := [hexDigit (b / 16), hexDigit (b % 16)]

/-- `format_bluetooth_address` (lines 47-57): the six shifted-and-masked
bytes printed as `"%02X:%02X:%02X:%02X:%02X:%02X"` (58 is the colon). -/
def format_bluetooth_address (address : Nat) : List Nat :=
  byteHex ((address >>> 40) % 256) ++ [58] ++
  byteHex ((address >>> 32) % 256) ++ [58] ++
  byteHex ((address >>> 24) % 256) ++ [58] ++
  byteHex ((address >>> 16) % 256) ++ [58] ++
  byteHex ((address >>> 8) % 256) ++ [58] ++
  byteHex (address % 256)

/-- `winrt_initialize` (lines 67-78): a no-op returning 0 when already
initialized; otherwise `init_apartment` runs, and on success the flag is
set and 0 returned, on a throw the state is untouched and -1 returned. -/
def winrt_initialize (env : Env) (s : GlobalState) : GlobalState × Int :=
  if s.g_initialized then (s, 0)
  else if env.apartmentOk then ({ s with g_initialized := true }, 0)
  else (s, -1)

/-- `winrt_cleanup` (lines 81-102).  Besides the successor state, we return
the list of strings freed by the `delete[]` loop, in deletion order (for
each stored device: its name if non-null, then its address). -/
def winrt_cleanup (s : GlobalState) : GlobalState × List (List Nat) :=
  let freed := s.g_discovered_devices.flatMap fun d =>
    (match d.name with | some n => [n] | none => []) ++ [d.address]
  ({ s with
      g_watcher := false
      g_discovered_devices := []
      g_callback := none
      g_user_data := none
      g_initialized := false },
   freed)

/-- `winrt_stop_scan` (lines 236-244): stop and reset the watcher when it
exists. -/
def winrt_stop_scan (s : GlobalState) : GlobalState :=
  if s.g_watcher then { s with g_watcher := false } else s

/-- The `Received` handler installed by `winrt_start_scan` (lines 171-216).
Returns the successor state together with the device passed to the
callback, when the callback was invoked (`none` = the callback was not
called, because the device was filtered out or `g_callback` is null). -/
def received_handler (s : GlobalState) (args : AdvArgs) :
    GlobalState × Option BLEDevice :=
  let name : Option (List Nat) :=
    if args.advertisement.localName = [] then none
    else some args.advertisement.localName
  let should_report : Bool :=
    if s.g_niox_only && !(is_niox_device name) then false else true
  if should_report then
    let device : BLEDevice :=
      { name := name
        address := format_bluetooth_address args.bluetoothAddress
        rssi := args.rawSignalStrength
        hasRssi := 1 }
    ({ s with g_discovered_devices := s.g_discovered_devices ++ [device] },
     if s.g_callback.isSome then some device else none)
  else
    (s, none)

/-- `winrt_start_scan` (lines 147-233).  The `durationMs` argument only
feeds the detached timer thread, which is outside this state model. -/
def winrt_start_scan (env : Env) (s : GlobalState)
    (durationMs nioxOnly : Int) (callback userData : Option Nat) :
    GlobalState × Int :=
  let initStep : GlobalState × Bool :=
    if !s.g_initialized then
      let p := winrt_initialize env s
      (p.1, p.2 == 0)
    else (s, true)
  if !initStep.2 then (initStep.1, -1)
  else if initStep.1.g_watcher then (initStep.1, -1)
  else
    let s2 : GlobalState :=
      { initStep.1 with
          g_callback := callback
          g_user_data := userData
          g_niox_only := nioxOnly != 0
          g_discovered_devices := [] }
    if env.watcherOk then ({ s2 with g_watcher := true }, 0)
    else (s2, -1)

/-- The device built by the `Received` handler (lines 194-198) for given
event arguments. -/
def mkDevice (args : AdvArgs) : BLEDevice :=
  { name :=
      if args.advertisement.localName = [] then none
      else some args.advertisement.localName
    address := format_bluetooth_address args.bluetoothAddress
    rssi := args.rawSignalStrength
    hasRssi := 1 }

/-! ## Helper lemmas -/

theorem strncmp_zero_iff (p : List Nat) (hp : 0 ∉ p) :
    ∀ n : List Nat, (strncmp n p p.length = 0 ↔ p <+: n) := by
  induction p with
  | nil => intro n; simp [strncmp, List.nil_prefix]
  | cons b bs ih =>
    intro n
    have hb : b ≠ 0 := fun h => hp (h ▸ List.mem_cons_self b bs)
    cases n with
    | nil =>
      simp only [List.length_cons, strncmp]
      constructor
      · intro h; exfalso; omega
      · intro h; exact absurd h (by simp)
    | cons a as =>
      simp only [List.length_cons, strncmp]
      by_cases hab : a = b
      · subst hab
        simp only [ne_eq, not_true_eq_false, if_false, if_neg hb, reduceIte]
        rw [List.cons_prefix_cons]
        have := ih (fun h => hp (List.mem_cons_of_mem _ h)) as
        simp [this]
      · simp only [ne_eq, hab, not_false_eq_true, if_true, reduceIte]
        rw [List.cons_prefix_cons]
        constructor
        · intro h; exfalso; omega
        · rintro ⟨h1, -⟩; exact absurd h1.symm hab

theorem is_niox_device_some (name : List Nat) :
    is_niox_device (some name) = true ↔ NIOX_PREFIX <+: name := by
  have h := strncmp_zero_iff NIOX_PREFIX (by decide) name
  simpa [is_niox_device] using h

/-! ## Claim theorems -/

/-- C1: during a scan started with `nioxOnly != 0`, an advertisement is
reported (appended to the discovered-device list and passed to the
callback) if and only if its UTF-8 local name starts with the 8-byte
prefix "NIOX PRO"; in particular an empty or absent local name is never
reported in this mode. -/
theorem niox_only_filter (s : GlobalState) (args : AdvArgs)
    (hN : s.g_niox_only = true) (hcb : s.g_callback.isSome = true) :
    (received_handler s args =
      if NIOX_PREFIX <+: args.advertisement.localName then
        ({ s with g_discovered_devices :=
              s.g_discovered_devices ++ [mkDevice args] },
         some (mkDevice args))
      else (s, none)) ∧
    (args.advertisement.localName = [] → received_handler s args = (s, none)) := by
  by_cases hln : args.advertisement.localName = []
  · have hpf : ¬ NIOX_PREFIX <+: args.advertisement.localName := by
      rw [hln]; decide
    constructor
    · simp [received_handler, hln, is_niox_device, hN, hpf, NIOX_PREFIX]
    · intro _; simp [received_handler, hln, is_niox_device, hN]
  · refine ⟨?_, fun h => absurd h hln⟩
    by_cases hpf : NIOX_PREFIX <+: args.advertisement.localName
    · have h1 : is_niox_device (some args.advertisement.localName) = true :=
        (is_niox_device_some _).2 hpf
      simp [received_handler, hln, hN, h1, hpf, mkDevice, hcb]
    · have h1 : is_niox_device (some args.advertisement.localName) = false := by
        simpa using mt (is_niox_device_some _).1 hpf
      simp [received_handler, hln, hN, h1, hpf]

/-- A concrete state with an active NIOX-only scan, for witnesses. -/
def sNiox : GlobalState :=
  { g_initialized := true
    g_watcher := true
    g_discovered_devices := []
    g_callback := some 1
    g_user_data := some 2
    g_niox_only := true }

/-- A concrete advertisement with local name "NIOX PRO 1". -/
def argsNiox : AdvArgs :=
  { bluetoothAddress := 0x112233445566
    rawSignalStrength := -50
    advertisement :=
      { localName := [78, 73, 79, 88, 32, 80, 82, 79, 32, 49]
        serviceData := []
        manufacturerData := [] } }

/-- Witness for `niox_only_filter` at a concrete state and advertisement. -/
theorem niox_only_filter_witness :
    sNiox.g_niox_only = true ∧ sNiox.g_callback.isSome = true ∧
    received_handler sNiox argsNiox =
      (if NIOX_PREFIX <+: argsNiox.advertisement.localName then
        ({ sNiox with g_discovered_devices :=
              sNiox.g_discovered_devices ++ [mkDevice argsNiox] },
         some (mkDevice argsNiox))
      else (sNiox, none)) :=
  ⟨rfl, rfl, (niox_only_filter sNiox argsNiox rfl rfl).1⟩

/-- C3: during a scan started with `nioxOnly == 0`, every advertisement is
reported unconditionally: it is appended to the discovered-device list and
passed to the callback, and its reported name is null exactly when the
local name is empty. -/
theorem report_all_devices (s : GlobalState) (args : AdvArgs)
    (hN : s.g_niox_only = false) (hcb : s.g_callback.isSome = true) :
    received_handler s args =
      ({ s with g_discovered_devices :=
            s.g_discovered_devices ++ [mkDevice args] },
       some (mkDevice args)) ∧
    ((mkDevice args).name = none ↔ args.advertisement.localName = []) := by
  constructor
  · simp [received_handler, hN, hcb, mkDevice]
  · by_cases hln : args.advertisement.localName = [] <;> simp [mkDevice, hln]

/-- A concrete state with an active unfiltered scan, for witnesses. -/
def sAll : GlobalState :=
  { g_initialized := true
    g_watcher := true
    g_discovered_devices := []
    g_callback := some 1
    g_user_data := none
    g_niox_only := false }

/-- A concrete advertisement with an empty local name. -/
def argsNoName : AdvArgs :=
  { bluetoothAddress := 0xAABBCCDDEEFF
    rawSignalStrength := -80
    advertisement :=
      { localName := []
        serviceData := [[22, 10]]
        manufacturerData := [] } }

/-- Witness for `report_all_devices`: an advertisement without a local name
is reported with a null name when the filter is off. -/
theorem report_all_devices_witness :
    sAll.g_niox_only = false ∧ sAll.g_callback.isSome = true ∧
    (received_handler sAll argsNoName =
      ({ sAll with g_discovered_devices :=
            sAll.g_discovered_devices ++ [mkDevice argsNoName] },
       some (mkDevice argsNoName)) ∧
     ((mkDevice argsNoName).name = none ↔
       argsNoName.advertisement.localName = [])) :=
  ⟨rfl, rfl, report_all_devices sAll argsNoName rfl rfl⟩

/-- The callback, when invoked by the `Received` handler, is always passed
the device built by `mkDevice`. -/
theorem handler_snd (s : GlobalState) (args : AdvArgs) :
    (received_handler s args).2 = none ∨
    (received_handler s args).2 = some (mkDevice args) := by
  simp only [received_handler, mkDevice]
  repeat' split
  all_goals simp

/-- C5: the reported name is derived solely from the advertisement's local
name (UTF-8 bytes, or null when empty); the other advertisement payload
fields never influence the handler's behaviour. -/
theorem name_from_local_name_only (s : GlobalState) (a1 a2 : AdvArgs)
    (hA : a1.bluetoothAddress = a2.bluetoothAddress)
    (hR : a1.rawSignalStrength = a2.rawSignalStrength)
    (hL : a1.advertisement.localName = a2.advertisement.localName) :
    received_handler s a1 = received_handler s a2 ∧
    (∀ d : BLEDevice, (received_handler s a1).2 = some d →
      d.name = if a1.advertisement.localName = [] then none
               else some a1.advertisement.localName) := by
  have h1 : received_handler s a1 = received_handler s a2 := by
    unfold received_handler
    rw [hA, hR, hL]
  refine ⟨h1, ?_⟩
  intro d hd
  rcases handler_snd s a1 with h | h
  · rw [h] at hd; cases hd
  · rw [h] at hd
    cases hd
    rfl

/-- A second advertisement agreeing with `argsNiox` on address, signal
strength, and local name, but with different service and manufacturer
data. -/
def argsNioxAlt : AdvArgs :=
  { bluetoothAddress := 0x112233445566
    rawSignalStrength := -50
    advertisement :=
      { localName := [78, 73, 79, 88, 32, 80, 82, 79, 32, 49]
        serviceData := [[254, 171, 1, 2, 3]]
        manufacturerData := [[76, 0]] } }

/-- Witness for `name_from_local_name_only` at two concrete advertisements
differing only in their non-name payload fields. -/
theorem name_from_local_name_only_witness :
    argsNiox.bluetoothAddress = argsNioxAlt.bluetoothAddress ∧
    argsNiox.rawSignalStrength = argsNioxAlt.rawSignalStrength ∧
    argsNiox.advertisement.localName = argsNioxAlt.advertisement.localName ∧
    received_handler sNiox argsNiox = received_handler sNiox argsNioxAlt ∧
    (received_handler sNiox argsNiox).2 = some (mkDevice argsNiox) ∧
    (mkDevice argsNiox).name =
      (if argsNiox.advertisement.localName = [] then none
       else some argsNiox.advertisement.localName) :=
  ⟨rfl, rfl, rfl,
   (name_from_local_name_only sNiox argsNiox argsNioxAlt rfl rfl rfl).1,
   by decide,
   (name_from_local_name_only sNiox argsNiox argsNioxAlt rfl rfl rfl).2
     (mkDevice argsNiox) (by decide)⟩

/-- C9: every device appended to the discovered-device list or passed to
the callback by the `Received` handler has `hasRssi = 1`, the address
produced by `format_bluetooth_address` from the advertisement's address,
the advertisement's raw signal strength as `rssi`, and a name that is null
exactly when the advertisement's local name was empty. -/
theorem reported_device_invariant (s : GlobalState) (args : AdvArgs)
    (d : BLEDevice)
    (hd : d ∈ (received_handler s args).1.g_discovered_devices ∨
          (received_handler s args).2 = some d) :
    d ∈ s.g_discovered_devices ∨
    (d.hasRssi = 1 ∧
     d.address = format_bluetooth_address args.bluetoothAddress ∧
     d.rssi = args.rawSignalStrength ∧
     (d.name = none ↔ args.advertisement.localName = [])) := by
  have hmk : d = mkDevice args →
      d.hasRssi = 1 ∧
      d.address = format_bluetooth_address args.bluetoothAddress ∧
      d.rssi = args.rawSignalStrength ∧
      (d.name = none ↔ args.advertisement.localName = []) := by
    intro h
    subst h
    refine ⟨rfl, rfl, rfl, ?_⟩
    by_cases hln : args.advertisement.localName = [] <;> simp [mkDevice, hln]
  rcases hd with hd | hd
  · have hlist : (received_handler s args).1.g_discovered_devices =
        s.g_discovered_devices ∨
        (received_handler s args).1.g_discovered_devices =
        s.g_discovered_devices ++ [mkDevice args] := by
      simp only [received_handler, mkDevice]
      repeat' split
      all_goals simp
    rcases hlist with h | h
    · rw [h] at hd; exact Or.inl hd
    · rw [h] at hd
      rcases List.mem_append.1 hd with h2 | h2
      · exact Or.inl h2
      · right
        exact hmk (by simpa using h2)
  · rcases handler_snd s args with h | h
    · rw [h] at hd; cases hd
    · rw [h] at hd
      right
      exact hmk (by injection hd.symm)

/-- Modelled from the spec's words for the address format: the six
least-significant bytes of the address (most significant of the six
first), as uppercase two-digit hexadecimal pairs separated by colons. -/
def addressTextSpec (address : Nat) : List Nat :=
  let b := address % 2 ^ 48
  byteHex (b / 2 ^ 40 % 256) ++ [58] ++
  byteHex (b / 2 ^ 32 % 256) ++ [58] ++
  byteHex (b / 2 ^ 24 % 256) ++ [58] ++
  byteHex (b / 2 ^ 16 % 256) ++ [58] ++
  byteHex (b / 2 ^ 8 % 256) ++ [58] ++
  byteHex (b % 256)

theorem format_eq_addressTextSpec (a : Nat) :
    format_bluetooth_address a = addressTextSpec a := by
  have e40 : (a >>> 40) % 256 = a % 2 ^ 48 / 2 ^ 40 % 256 := by
    rw [Nat.shiftRight_eq_div_pow]; omega
  have e32 : (a >>> 32) % 256 = a % 2 ^ 48 / 2 ^ 32 % 256 := by
    rw [Nat.shiftRight_eq_div_pow]; omega
  have e24 : (a >>> 24) % 256 = a % 2 ^ 48 / 2 ^ 24 % 256 := by
    rw [Nat.shiftRight_eq_div_pow]; omega
  have e16 : (a >>> 16) % 256 = a % 2 ^ 48 / 2 ^ 16 % 256 := by
    rw [Nat.shiftRight_eq_div_pow]; omega
  have e8 : (a >>> 8) % 256 = a % 2 ^ 48 / 2 ^ 8 % 256 := by
    rw [Nat.shiftRight_eq_div_pow]; omega
  have e0 : a % 256 = a % 2 ^ 48 % 256 := by omega
  simp only [format_bluetooth_address, addressTextSpec, e40, e32, e24, e16,
    e8, e0]

/-- C4: `format_bluetooth_address` produces the 17-character
`XX:XX:XX:XX:XX:XX` form: the six least-significant bytes of the address
as uppercase two-digit hexadecimal pairs separated by colons, most
significant of the six first, and bits 63-48 of the input do not affect
the result. -/
theorem format_bluetooth_address_correct (a : Nat) :
    format_bluetooth_address a = addressTextSpec a ∧
    (format_bluetooth_address a).length = 17 ∧
    format_bluetooth_address a = format_bluetooth_address (a % 2 ^ 48) ∧
    (∀ c ∈ format_bluetooth_address a,
      (48 ≤ c ∧ c ≤ 57) ∨ (65 ≤ c ∧ c ≤ 70) ∨ c = 58) := by
  refine ⟨format_eq_addressTextSpec a, ?_, ?_, ?_⟩
  · simp [format_bluetooth_address, byteHex]
  · rw [format_eq_addressTextSpec a, format_eq_addressTextSpec (a % 2 ^ 48)]
    simp only [addressTextSpec]
    have h : a % 2 ^ 48 % 2 ^ 48 = a % 2 ^ 48 := by omega
    rw [h]
  · have hfin : ∀ y : Nat, y < 16 →
        (48 ≤ hexDigit y ∧ hexDigit y ≤ 57) ∨
        (65 ≤ hexDigit y ∧ hexDigit y ≤ 70) ∨ hexDigit y = 58 := by
      intro y hy; unfold hexDigit; split <;> omega
    intro c hc
    simp only [format_bluetooth_address, byteHex, List.mem_append,
      List.mem_cons, List.not_mem_nil, or_false] at hc
    repeat' rcases hc with hc | hc
    all_goals first
      | exact hfin _ (by omega)
      | (right; right; rfl)

/-- Witness for `format_bluetooth_address_correct` at a concrete address,
exercising the character-class clause at the first colon. -/
theorem format_bluetooth_address_correct_witness :
    (58 : Nat) ∈ format_bluetooth_address 0xFFFF0123456789AB ∧
    ((48 ≤ (58 : Nat) ∧ (58 : Nat) ≤ 57) ∨
     (65 ≤ (58 : Nat) ∧ (58 : Nat) ≤ 70) ∨ (58 : Nat) = 58) :=
  ⟨by decide,
   (format_bluetooth_address_correct 0xFFFF0123456789AB).2.2.2 58 (by decide)⟩

/-- Witness for `reported_device_invariant` at a concrete callback
invocation. -/
theorem reported_device_invariant_witness :
    (mkDevice argsNoName ∈
        (received_handler sAll argsNoName).1.g_discovered_devices ∨
     (received_handler sAll argsNoName).2 = some (mkDevice argsNoName)) ∧
    (mkDevice argsNoName ∈ sAll.g_discovered_devices ∨
     ((mkDevice argsNoName).hasRssi = 1 ∧
      (mkDevice argsNoName).address =
        format_bluetooth_address argsNoName.bluetoothAddress ∧
      (mkDevice argsNoName).rssi = argsNoName.rawSignalStrength ∧
      ((mkDevice argsNoName).name = none ↔
        argsNoName.advertisement.localName = []))) :=
  ⟨by decide,
   reported_device_invariant sAll argsNoName (mkDevice argsNoName) (by decide)⟩

/-- C6: a successful `winrt_start_scan` starts from a fresh scan state:
the discovered-device list is cleared, the callback, user-data and
niox-only globals are set to exactly the arguments of the call (the flag
true iff `nioxOnly != 0`), the watcher exists and the library is
initialized. -/
theorem start_scan_fresh (env : Env) (s : GlobalState)
    (durationMs nioxOnly : Int) (callback userData : Option Nat)
    (h : (winrt_start_scan env s durationMs nioxOnly callback userData).2 = 0) :
    (winrt_start_scan env s durationMs nioxOnly callback userData).1 =
      { g_initialized := true
        g_watcher := true
        g_discovered_devices := []
        g_callback := callback
        g_user_data := userData
        g_niox_only := nioxOnly != 0 } := by
  by_cases hi : s.g_initialized
  all_goals by_cases ha : env.apartmentOk
  all_goals by_cases hw : env.watcherOk
  all_goals by_cases hwt : s.g_watcher
  all_goals simp_all [winrt_start_scan, winrt_initialize]

/-- A concrete environment in which every OS call succeeds. -/
def envOk : Env := { apartmentOk := true, watcherOk := true }

/-- Witness for `start_scan_fresh`: a concrete successful scan start. -/
theorem start_scan_fresh_witness :
    (winrt_start_scan envOk initialState 5000 1 (some 7) (some 8)).2 = 0 ∧
    (winrt_start_scan envOk initialState 5000 1 (some 7) (some 8)).1 =
      { g_initialized := true
        g_watcher := true
        g_discovered_devices := []
        g_callback := some 7
        g_user_data := some 8
        g_niox_only := (1 : Int) != 0 } :=
  ⟨by decide, start_scan_fresh envOk initialState 5000 1 (some 7) (some 8)
    (by decide)⟩

/-- C7: after `winrt_cleanup` the watcher is null, the discovered-device
list is empty, the callback and user-data pointers are null, the
initialized flag is false, and every stored name and address string was
freed by the `delete[]` loop. -/
theorem cleanup_releases_everything (s : GlobalState) :
    (winrt_cleanup s).1 =
      { g_initialized := false
        g_watcher := false
        g_discovered_devices := []
        g_callback := none
        g_user_data := none
        g_niox_only := s.g_niox_only } ∧
    (∀ d ∈ s.g_discovered_devices,
      d.address ∈ (winrt_cleanup s).2 ∧
      ∀ nm, d.name = some nm → nm ∈ (winrt_cleanup s).2) := by
  refine ⟨rfl, ?_⟩
  intro d hd
  constructor
  · simp only [winrt_cleanup, List.mem_flatMap]
    exact ⟨d, hd, by cases h : d.name <;> simp [h]⟩
  · intro nm hnm
    simp only [winrt_cleanup, List.mem_flatMap]
    exact ⟨d, hd, by rw [hnm]; simp⟩

/-- A concrete state holding two discovered devices, one of them without a
name. -/
def sTwoDevices : GlobalState :=
  { g_initialized := true
    g_watcher := false
    g_discovered_devices :=
      [{ name := some [78, 73, 79, 88, 32, 80, 82, 79]
         address := format_bluetooth_address 0x112233445566
         rssi := -50
         hasRssi := 1 },
       { name := none
         address := format_bluetooth_address 0xAABBCCDDEEFF
         rssi := -80
         hasRssi := 1 }]
    g_callback := some 1
    g_user_data := some 2
    g_niox_only := true }

/-- The first device stored in `sTwoDevices`. -/
def devNiox : BLEDevice :=
  { name := some [78, 73, 79, 88, 32, 80, 82, 79]
    address := format_bluetooth_address 0x112233445566
    rssi := -50
    hasRssi := 1 }

/-- Witness for `cleanup_releases_everything` at a concrete state and
stored device. -/
theorem cleanup_releases_everything_witness :
    devNiox ∈ sTwoDevices.g_discovered_devices ∧
    devNiox.name = some [78, 73, 79, 88, 32, 80, 82, 79] ∧
    (winrt_cleanup sTwoDevices).1 =
      { g_initialized := false
        g_watcher := false
        g_discovered_devices := []
        g_callback := none
        g_user_data := none
        g_niox_only := sTwoDevices.g_niox_only } ∧
    devNiox.address ∈ (winrt_cleanup sTwoDevices).2 ∧
    [78, 73, 79, 88, 32, 80, 82, 79] ∈ (winrt_cleanup sTwoDevices).2 :=
  ⟨by decide, rfl,
   (cleanup_releases_everything sTwoDevices).1,
   ((cleanup_releases_everything sTwoDevices).2 devNiox (by decide)).1,
   ((cleanup_releases_everything sTwoDevices).2 devNiox (by decide)).2 _ rfl⟩

/-- The global states reachable through the API of the wrapper, starting
from the initial values of the globals. -/
inductive Reachable : GlobalState → Prop where
  | start : Reachable initialState
  | step_init : ∀ env s, Reachable s → Reachable ( winrt_initialize env s).1
  | step_cleanup : ∀ s, Reachable s → Reachable (winrt_cleanup s).1
  | step_stop : ∀ s, Reachable s → Reachable (winrt_stop_scan s)
  | step_scan : ∀ env s durationMs nioxOnly callback userData,
      Reachable s →
      Reachable (winrt_start_scan env s durationMs nioxOnly callback userData).1
  | step_received : ∀ s args, Reachable s → Reachable (received_handler s args).1

/-- In every reachable state, a live watcher implies the initialized
flag. -/
theorem reachable_watcher_initialized :
    ∀ s, Reachable s → s.g_watcher = true → s.g_initialized = true := by
  intro s h
  induction h with
  | start => intro hw; simp [initialState] at hw
  | step_init env s hs ih =>
    intro hw
    by_cases hi : s.g_initialized
    all_goals by_cases ha : env.apartmentOk
    all_goals simp_all [ winrt_initialize]
  | step_cleanup s hs ih =>
    intro hw
    simp [winrt_cleanup] at hw
  | step_stop s hs ih =>
    intro hw
    simp only [winrt_stop_scan] at hw ⊢
    split at hw <;> simp_all
  | step_scan env s durationMs nioxOnly callback userData hs ih =>
    intro hw
    by_cases hi : s.g_initialized
    all_goals by_cases ha : env.apartmentOk
    all_goals by_cases hwok : env.watcherOk
    all_goals by_cases hwt : s.g_watcher
    all_goals simp_all [winrt_start_scan, winrt_initialize]
  | step_received s args hs ih =>
    intro hw
    have h1 : (received_handler s args).1.g_watcher = s.g_watcher ∧
        (received_handler s args).1.g_initialized = s.g_initialized := by
      simp only [received_handler]
      repeat' split
      all_goals simp
    rw [h1.2]
    exact ih (h1.1 ▸ hw)

/-- C8: calling `winrt_start_scan` while a scan is in progress (the
watcher handle is non-null, in any state reachable through the API)
returns -1 and leaves the whole global state unchanged. -/
theorem start_scan_busy (env : Env) (s : GlobalState)
    (durationMs nioxOnly : Int) (callback userData : Option Nat)
    (hr : Reachable s) (hw : s.g_watcher = true) :
    winrt_start_scan env s durationMs nioxOnly callback userData = (s, -1) := by
  have hi : s.g_initialized = true := reachable_watcher_initialized s hr hw
  simp [winrt_start_scan, hi, hw]

/-- The state after one successful scan start from the initial state. -/
def sBusy : GlobalState :=
  (winrt_start_scan envOk initialState 5000 1 (some 1) (some 2)).1

/-- Witness for `start_scan_busy`: a second `winrt_start_scan` during a
concrete running scan fails and changes nothing. -/
theorem start_scan_busy_witness :
    sBusy.g_watcher = true ∧
    winrt_start_scan envOk sBusy 3000 0 (some 3) none = (sBusy, -1) :=
  ⟨by decide,
   start_scan_busy envOk sBusy 3000 0 (some 3) none
    (Reachable.step_scan envOk initialState 5000 1 (some 1) (some 2)
      Reachable.start)
    (by decide)⟩

/-- C10: `winrt_initialize` is idempotent: on an already-initialized state
it returns 0 and changes nothing (the apartment call is not consulted),
and for every state and environment a second call right after a first one
changes neither the state nor the returned value. -/
theorem initialize_idempotent (env : Env) (s : GlobalState) :
    winrt_initialize env { s with g_initialized := true } =
      ({ s with g_initialized := true }, 0) ∧
    winrt_initialize env ( winrt_initialize env s).1 =
      winrt_initialize env s := by
  constructor
  · simp [ winrt_initialize]
  · by_cases hi : s.g_initialized <;> by_cases ha : env.apartmentOk <;>
      simp [ winrt_initialize, hi, ha]
